import Mathlib

set_option linter.unusedVariables false

/-!
Shallow embedding of the CarbonSequestration repository
(src/data_processor.py and src/app.py).

The repository is a thin client of a remote imagery service.  We model:
  * pixels as natural numbers, rasters as functions `Pixel → ℚ`;
  * a source Landsat image as its two consumed spectral bands
    (`SR_B5` = near infrared, `SR_B4` = red) plus the two metadata
    fields the code reads (`system:time_start`, `CLOUD_COVER`);
  * a single-band derived image (`EEImage`) carrying its band name,
    raster and metadata;
  * the remote catalog as a list of Landsat images, each with a
    footprint; `filterBounds`/`filterDate`/`sort` become list
    filtering and an insertion sort by cloud cover;
  * `reduceRegion(mean, scale, maxPixels)` as the arithmetic mean of
    the raster over a finite pixel set, failing when the pixel count
    exceeds `maxPixels`, returning a dictionary keyed by band name;
  * remote round trips (`getInfo` calls) and their failures via an
    explicit call trace and a failure oracle.
-/

abbrev Pixel := Nat

abbrev Region := Finset Pixel

/-- A source Landsat 8 image as consumed by `data_processor.py`:
the two reflectance bands used by `add_ndvi`, the capture timestamp
(`system:time_start`) and the `CLOUD_COVER` metadata, together with
the image footprint used by `filterBounds`. -/
structure LandsatImage where
  srB5 : Pixel → ℚ
  srB4 : Pixel → ℚ
  timeStart : Nat
  cloudCover : ℚ
  footprint : Finset Pixel

/-- A single-band derived image (the `NDVI` band after
`addBands`/`select("NDVI")`, or an image produced by band math). -/
structure EEImage where
  name : String
  pix : Pixel → ℚ
  timeStart : Nat
  cloudCover : ℚ

/-- The remote image catalog (`ee.ImageCollection("LANDSAT/LC08/C02/T1_L2")`). -/
abbrev Catalog := List LandsatImage

/-- `add_ndvi` (src/data_processor.py lines 30-35) combined with the
subsequent `select("NDVI")`: per pixel,
`ndvi = (nir - red) / (nir + red)`, band renamed to `NDVI`,
metadata preserved. -/
def add_ndvi (img : LandsatImage) : EEImage :=
  { name := "NDVI"
    pix := fun p => (img.srB5 p - img.srB4 p) / (img.srB5 p + img.srB4 p)
    timeStart := img.timeStart
    cloudCover := img.cloudCover }

/-- Comparison used by `.sort("CLOUD_COVER")`: ascending cloud cover. -/
def cloudLE (a b : LandsatImage) : Prop := a.cloudCover ≤ b.cloudCover

instance : DecidableRel cloudLE := fun a b => inferInstanceAs (Decidable (a.cloudCover ≤ b.cloudCover))

instance : IsTotal LandsatImage cloudLE := ⟨fun a b => le_total a.cloudCover b.cloudCover⟩

instance : IsTrans LandsatImage cloudLE := ⟨fun _ _ _ h h2 => le_trans h h2⟩

/-- `.sort("CLOUD_COVER")`: sort the collection by ascending cloud cover. -/
def sortByCloudCover (l : List LandsatImage) : List LandsatImage :=
  l.insertionSort cloudLE

/-- The filters of the remote query (src/data_processor.py lines 25-28):
`filterBounds(roi)` keeps images whose footprint meets the region,
`filterDate(start, end)` keeps captures with `start ≤ t < end`. -/
def queryFilter (roi : Region) (startDate endDate : Nat) (img : LandsatImage) : Bool :=
  decide (img.footprint ∩ roi).Nonempty && decide (startDate ≤ img.timeStart)
    && decide (img.timeStart < endDate)

/-- The image list the remote query returns for a window:
filtered by bounds and date, sorted by ascending cloud cover. -/
def queryImages (cat : Catalog) (roi : Region) (startDate endDate : Nat) :
    List LandsatImage :=
  sortByCloudCover (cat.filter (queryFilter roi startDate endDate))

/-- `get_ndvi_time_series` (src/data_processor.py lines 20-43): the
filtered, cloud-cover-sorted collection with the `NDVI` band computed
and selected on every image. -/
def get_ndvi_time_series (cat : Catalog) (roi : Region) (startDate endDate : Nat) :
    List EEImage :=
  (queryImages cat roi startDate endDate).map add_ndvi

/-- `estimate_carbon_storage` (src/data_processor.py lines 45-52):
`carbon = ndvi.multiply(200)`; pointwise scaling, band name and
metadata untouched. -/
def estimate_carbon_storage (img : EEImage) : EEImage :=
  { img with pix := fun p => img.pix p * 200 }

/-- Arithmetic mean of a raster over a finite pixel set. -/
def finsetMean (s : Finset Pixel) (f : Pixel → ℚ) : ℚ :=
  (∑ p in s, f p) / s.card

/-- `ee.ImageCollection.mean()`: per-pixel mean across the images of the
collection; the band name of the (single-band) inputs is kept. -/
def collectionMean (imgs : List EEImage) : EEImage :=
  { name := match imgs with
      | [] => ""
      | img :: _ => img.name
    pix := fun p => (imgs.map (fun img => img.pix p)).sum / imgs.length
    timeStart := 0
    cloudCover := 0 }

/-- `reduceRegion(reducer = mean, geometry = roi, scale, maxPixels)`:
spatial mean of the raster over the region, failing when the region
holds more than `maxPixels` sampled pixels; the result is a dictionary
keyed by the band name.  `scale` fixes the sampling resolution; in the
model the region is already the pixel set sampled at that scale. -/
def reduceRegionMean (img : EEImage) (roi : Region) (scale : Nat) (maxPixels : Nat) :
    Except String (List (String × ℚ)) :=
  if maxPixels < roi.card then Except.error "Too many pixels in region"
  else Except.ok [(img.name, finsetMean roi img.pix)]

/-- `get_area_statistics` (src/data_processor.py lines 54-75):
temporal mean of the NDVI series, scaled by `estimate_carbon_storage`,
then `reduceRegion` with the mean reducer at scale 30 capped at `10^9`
pixels. -/
def get_area_statistics (cat : Catalog) (roi : Region) (startDate endDate : Nat) :
    Except String (List (String × ℚ)) :=
  reduceRegionMean
    (estimate_carbon_storage (collectionMean (get_ndvi_time_series cat roi startDate endDate)))
    roi 30 (10 ^ 9)

/-- The per-image `reduceRegion` of the loop body of
`create_time_series_data` (src/data_processor.py lines 98-103):
same reducer, scale and pixel cap as `get_area_statistics`. -/
def imageAreaStats (img : EEImage) (roi : Region) : Except String (List (String × ℚ)) :=
  reduceRegionMean (estimate_carbon_storage img) roi 30 (10 ^ 9)

/-- The carbon value appended for one image:
`stats.getInfo()["NDVI"]` (src/data_processor.py line 106).  In the
source a missing key or a failed reduction raises; the fallbacks below
are unreachable on the lists the code builds (see the per-claim
theorems), and remote failures are modelled by `timeSeriesRun`. -/
def rowValue (img : EEImage) (roi : Region) : ℚ :=
  match imageAreaStats img roi with
  | Except.ok d => (List.lookup "NDVI" d).getD 0
  | Except.error _ => 0

/-- The rows of the time-series loop: one `(date, carbon)` pair per
image, in collection order. -/
def timeSeriesRows (imgs : List EEImage) (roi : Region) : List (Nat × ℚ) :=
  imgs.map (fun img => (img.timeStart, rowValue img roi))

/-- `create_time_series_data` (src/data_processor.py lines 77-114),
successful path: the data frame rows `(Date, Carbon_Storage)`. -/
def create_time_series_data (cat : Catalog) (roi : Region) (startDate endDate : Nat) :
    List (Nat × ℚ) :=
  timeSeriesRows (get_ndvi_time_series cat roi startDate endDate) roi

/-- One remote round trip (`getInfo` call) of
`create_time_series_data`: the collection-size query, and per image
index `i` the capture-date query and the reduction materialization. -/
inductive RemoteCall where
  | sizeInfo : RemoteCall
  | dateInfo : Nat → RemoteCall
  | statsInfo : Nat → RemoteCall
deriving DecidableEq, Repr

/-- The loop of `create_time_series_data` (src/data_processor.py lines
92-106) with an explicit call trace and a failure oracle: iteration `i`
issues the date query, then the reduction query; when the reduction
materialization fails the loop raises, discarding the rows built so
far. -/
def tsLoop (roi : Region) (fail : Nat → Bool) :
    List EEImage → Nat → List RemoteCall × Except String (List (Nat × ℚ))
  | [], _ => ([], Except.ok [])
  | img :: rest, i =>
      if fail i then
        ([RemoteCall.dateInfo i, RemoteCall.statsInfo i], Except.error "reduction failed")
      else
        let r := tsLoop roi fail rest (i + 1)
        (RemoteCall.dateInfo i :: RemoteCall.statsInfo i :: r.1,
          r.2.map (fun rows => (img.timeStart, rowValue img roi) :: rows))

/-- `create_time_series_data` with its remote effects: the size query
followed by the loop; the result is either the full row list or the
error that aborted it, never a partial list. -/
def timeSeriesRun (imgs : List EEImage) (roi : Region) (fail : Nat → Bool) :
    List RemoteCall × Except String (List (Nat × ℚ)) :=
  let r := tsLoop roi fail imgs 0
  (RemoteCall.sizeInfo :: r.1, r.2)

/-- The remote calls the loop issues for the images at indices
`i, i + 1, ...` (`n` of them) when no call fails: per image one
capture-date query followed by one reduction query. -/
def loopTrace : Nat → Nat → List RemoteCall
  | _, 0 => []
  | i, n + 1 => RemoteCall.dateInfo i :: RemoteCall.statsInfo i :: loopTrace (i + 1) n

/-- Spec-side area statistic, written from the words of the spec (section
4.1, Area statistics): computes the index series, takes the per-pixel
temporal mean of the index across all returned images, converts to a
carbon estimate by multiplying by 200, then spatially reduces by the
mean over the region at the fixed 30-meter sampling scale, capped at
`10^9` sampled pixels, returning a single scalar. -/
def spec_area_statistic (cat : Catalog) (roi : Region) (startDate endDate : Nat) :
    Except String ℚ :=
  let series := get_ndvi_time_series cat roi startDate endDate
  let temporalMeanIndex : Pixel → ℚ :=
    fun p => (series.map (fun img => img.pix p)).sum / series.length
  let carbonEstimate : Pixel → ℚ := fun p => temporalMeanIndex p * 200
  let sampleScale : Nat := 30
  if 10 ^ 9 < (roi.card : Nat) then Except.error "Too many pixels in region"
  else Except.ok ((∑ p in roi, carbonEstimate p) / roi.card)

/-! ### The app layer (src/app.py) -/

/-- The observable outcomes of the external service calls made while
starting up: whether `ee.Initialize()` succeeds directly, whether
`ee.Authenticate()` succeeds, and whether `ee.Initialize()` succeeds
after a fresh authentication. -/
structure EEService where
  initOk : Bool
  authOk : Bool
  initAfterAuthOk : Bool
deriving DecidableEq, Repr

/-- A remote call made while constructing the processor. -/
inductive InitCall where
  | initCall : InitCall
  | authCall : InitCall
deriving DecidableEq, Repr

/-- `CarbonSequestrationProcessor.__init__` (src/data_processor.py
lines 8-18): try `ee.Initialize()`; on any failure try
`ee.Authenticate()` followed by `ee.Initialize()` again; if that also
fails, print and re-raise.  Returns the trace of remote calls and
whether construction succeeded. -/
def processorInit (s : EEService) : List InitCall × Bool :=
  if s.initOk then ([InitCall.initCall], true)
  else if s.authOk then
    ([InitCall.initCall, InitCall.authCall, InitCall.initCall], s.initAfterAuthOk)
  else ([InitCall.initCall, InitCall.authCall], false)

/-- The property of the claim that no operation retries a failed
initial remote connection, read on the call trace of the constructor: a retry means `ee.Initialize()` is
attempted more than once. -/
def initRetried (s : EEService) : Prop :=
  2 ≤ (processorInit s).1.count InitCall.initCall

instance (s : EEService) : Decidable (initRetried s) :=
  inferInstanceAs (Decidable (2 ≤ (processorInit s).1.count InitCall.initCall))

/-- Per-view failure switches for the three dashboard sections
(map, statistics, time-series chart). -/
structure ViewFailures where
  mapFail : Bool
  statsFail : Bool
  chartFail : Bool
deriving DecidableEq, Repr

/-- Outcome of one dashboard section: rendered, or its exception caught
and shown as an inline error message. -/
inductive ViewResult where
  | rendered : ViewResult
  | inlineError : ViewResult
deriving DecidableEq, Repr

/-- One `try/except` view block of src/app.py: the exception is caught
locally and shown inline. -/
def runView (failB : Bool) : ViewResult :=
  if failB then ViewResult.inlineError else ViewResult.rendered

/-- `src/app.py` top-level flow: `initialize_earth_engine` (lines
11-35) runs `ee.Initialize()` and on failure shows the setup
instructions once and halts (`st.stop()`, modelled by `none`);
otherwise the three view sections each run inside their own
`try/except` and all are attempted. -/
def appRun (s : EEService) (f : ViewFailures) :
    Option (ViewResult × ViewResult × ViewResult) :=
  if s.initOk then some (runView f.mapFail, runView f.statsFail, runView f.chartFail)
  else none

/-- Modelled from the spec: the date-range widget of the dashboard
(`st.sidebar.date_input` of src/app.py lines 61-68, an external
library).  Per the Data Model of the spec, the normalized user input is a
pair of dates with `start ≤ end` and `end` capped at the current
date. -/
def widgetNormalized (now startDate endDate : Nat) : Prop :=
  startDate ≤ endDate ∧ endDate ≤ now

/-- The `filterDate` arguments of a remote query. -/
structure EEQuery where
  qstart : Nat
  qend : Nat
deriving DecidableEq, Repr

/-- The query the app issues from the widget output (src/app.py lines
85-86, 90): the widget pair is passed straight through to
`filterDate`. -/
def appQuery (startDate endDate : Nat) : EEQuery :=
  { qstart := startDate, qend := endDate }

/-- A malformed date query: the start bound lies after the end bound. -/
def malformedQuery (q : EEQuery) : Prop := q.qend < q.qstart

instance (q : EEQuery) : Decidable (malformedQuery q) :=
  inferInstanceAs (Decidable (q.qend < q.qstart))

/-- The reader of the statistics dictionary in the app:
`stats_dict["NDVI"]` (src/app.py lines 118 and 124). -/
def appStatsRead (d : List (String × ℚ)) : Option ℚ :=
  List.lookup "NDVI" d

/-- Mean of a list of rationals (the averaging used to compare the two
aggregation paths). -/
def listMean (l : List ℚ) : ℚ := l.sum / l.length

/-! ### Concrete inputs used by witnesses and counterexamples -/

/-- A clear-sky capture: `nir = 3`, `red = 1` everywhere (index `1/2`),
taken at time `200`, cloud cover `0`. -/
def imgA : LandsatImage :=
  { srB5 := fun _ => 3
    srB4 := fun _ => 1
    timeStart := 200
    cloudCover := 0
    footprint := {0} }

/-- An earlier but cloudier capture: `nir = 1`, `red = 0` everywhere
(index `1`), taken at time `100`, cloud cover `5`. -/
def imgB : LandsatImage :=
  { srB5 := fun _ => 1
    srB4 := fun _ => 0
    timeStart := 100
    cloudCover := 5
    footprint := {0} }

/-- A two-image catalog: the earlier capture is cloudier, so the
cloud-cover sort returns the later capture first. -/
def demoCat : Catalog := [imgB, imgA]

/-- A one-pixel region meeting both footprints. -/
def demoRoi : Region := {0}

/-! ### Helper lemmas -/

theorem length_queryImages (cat : Catalog) (roi : Region) (startDate endDate : Nat) :
    (queryImages cat roi startDate endDate).length
      = (cat.filter (queryFilter roi startDate endDate)).length :=
  List.length_insertionSort _ _

theorem mem_series_name {cat : Catalog} {roi : Region} {startDate endDate : Nat}
    {img : EEImage} (h : img ∈ get_ndvi_time_series cat roi startDate endDate) :
    img.name = "NDVI" := by
  obtain ⟨L, _, rfl⟩ := List.mem_map.mp h
  rfl

theorem collectionMean_series_name {cat : Catalog} {roi : Region} {startDate endDate : Nat}
    (h : get_ndvi_time_series cat roi startDate endDate ≠ []) :
    (collectionMean (get_ndvi_time_series cat roi startDate endDate)).name = "NDVI" := by
  rcases hs : get_ndvi_time_series cat roi startDate endDate with _ | ⟨x, xs⟩
  · exact absurd hs h
  · have hx : x ∈ get_ndvi_time_series cat roi startDate endDate := by
      rw [hs]; exact List.mem_cons_self x xs
    show x.name = "NDVI"
    exact mem_series_name hx

theorem reduceRegionMean_ok (img : EEImage) (roi : Region) (scale maxPixels : Nat)
    (h : roi.card ≤ maxPixels) :
    reduceRegionMean img roi scale maxPixels
      = Except.ok [(img.name, finsetMean roi img.pix)] := by
  unfold reduceRegionMean
  rw [if_neg (by omega)]

theorem get_area_statistics_eq (cat : Catalog) (roi : Region) (startDate endDate : Nat)
    (h : roi.card ≤ 10 ^ 9) :
    get_area_statistics cat roi startDate endDate
      = Except.ok [((collectionMean (get_ndvi_time_series cat roi startDate endDate)).name,
          finsetMean roi
            (fun p => (collectionMean (get_ndvi_time_series cat roi startDate endDate)).pix p * 200))] := by
  unfold get_area_statistics
  rw [reduceRegionMean_ok _ _ _ _ h]
  rfl

theorem rowValue_eq (img : EEImage) (roi : Region) (hname : img.name = "NDVI")
    (h : roi.card ≤ 10 ^ 9) :
    rowValue img roi = finsetMean roi (fun p => img.pix p * 200) := by
  unfold rowValue imageAreaStats
  rw [reduceRegionMean_ok _ _ _ _ h]
  simp [estimate_carbon_storage, hname, List.lookup]

theorem list_sum_map_div {α : Type} (l : List α) (f : α → ℚ) (c : ℚ) :
    (l.map (fun i => f i / c)).sum = (l.map f).sum / c := by
  induction l with
  | nil => simp
  | cons a t ih => simp [ih, add_div]

theorem list_sum_map_mul {α : Type} (l : List α) (f : α → ℚ) (c : ℚ) :
    (l.map (fun i => f i * c)).sum = (l.map f).sum * c := by
  induction l with
  | nil => simp
  | cons a t ih => simp [ih, add_mul]

theorem sum_finset_list_comm (s : Finset Pixel) (l : List EEImage) (f : EEImage → Pixel → ℚ) :
    ∑ p in s, (l.map (fun i => f i p)).sum = (l.map (fun i => ∑ p in s, f i p)).sum := by
  induction l with
  | nil => simp
  | cons a t ih => simp [Finset.sum_add_distrib, ih]

/-- Multiplication by the constant 200 is linear, so it commutes with
the per-pixel temporal mean and the spatial mean: scaling the temporal
mean and then spatially averaging equals spatially averaging each
scaled image and then averaging the scalars. -/
theorem mean_swap (roi : Region) (imgs : List EEImage) :
    finsetMean roi (fun p => ((imgs.map (fun i => i.pix p)).sum / imgs.length) * 200)
      = listMean (imgs.map (fun i => finsetMean roi (fun p => i.pix p * 200))) := by
  simp only [finsetMean, listMean, List.length_map]
  rw [list_sum_map_div]
  simp only [← Finset.sum_mul]
  rw [list_sum_map_mul]
  rw [← sum_finset_list_comm roi imgs (fun i p => i.pix p)]
  rw [← Finset.sum_div, div_mul_eq_mul_div, div_div, div_div, mul_comm (imgs.length : ℚ)]

theorem loopTrace_length (i n : Nat) : (loopTrace i n).length = 2 * n := by
  induction n generalizing i with
  | zero => rfl
  | succ n ih =>
      simp only [loopTrace, List.length_cons, ih]
      omega

theorem loopTrace_count_date (i n j : Nat) :
    (loopTrace i n).count (RemoteCall.dateInfo j) = if i ≤ j ∧ j < i + n then 1 else 0 := by
  induction n generalizing i with
  | zero =>
      simp only [loopTrace, List.count_nil]
      rw [if_neg (by omega)]
  | succ n ih =>
      simp only [loopTrace, List.count_cons, ih]
      by_cases hij : i = j <;> simp [hij] <;> split_ifs <;> omega

theorem loopTrace_count_stats (i n j : Nat) :
    (loopTrace i n).count (RemoteCall.statsInfo j) = if i ≤ j ∧ j < i + n then 1 else 0 := by
  induction n generalizing i with
  | zero =>
      simp only [loopTrace, List.count_nil]
      rw [if_neg (by omega)]
  | succ n ih =>
      simp only [loopTrace, List.count_cons, ih]
      by_cases hij : i = j <;> simp [hij] <;> split_ifs <;> omega

theorem tsLoop_no_fail (roi : Region) (fail : Nat → Bool) (imgs : List EEImage) (i : Nat)
    (h : ∀ j, fail j = false) :
    tsLoop roi fail imgs i = (loopTrace i imgs.length, Except.ok (timeSeriesRows imgs roi)) := by
  induction imgs generalizing i with
  | nil => simp [tsLoop, loopTrace, timeSeriesRows]
  | cons img rest ih =>
      simp [tsLoop, h i, ih (i + 1), loopTrace, timeSeriesRows, Except.map]

theorem tsLoop_fail (roi : Region) (fail : Nat → Bool) (imgs : List EEImage) (i j : Nat)
    (hj : j < imgs.length) (hf : fail (i + j) = true) :
    ∃ msg, (tsLoop roi fail imgs i).2 = Except.error msg := by
  induction imgs generalizing i j with
  | nil => exact absurd hj (by simp)
  | cons img rest ih =>
      by_cases hfi : fail i = true
      · exact ⟨"reduction failed", by simp [tsLoop, hfi]⟩
      · cases j with
        | zero =>
            rw [Nat.add_zero] at hf
            exact absurd hf hfi
        | succ k =>
            have hk : k < rest.length := by
              simp only [List.length_cons] at hj
              omega
            have hfk : fail (i + 1 + k) = true := by
              have : i + 1 + k = i + (k + 1) := by omega
              rw [this]
              exact hf
            obtain ⟨msg, hm⟩ := ih (i + 1) k hk hfk
            refine ⟨msg, ?_⟩
            simp [tsLoop, hfi, hm, Except.map]

/-! ### Claim theorems -/

/-- C1: `estimate_carbon_storage` is a pure scalar transform: for every
input index value `v` (at every pixel) it returns exactly `v * 200`;
an index of `1/2` yields a carbon value of `100`; it has no error
condition (its type is total, it touches nothing but the raster); and
its output is unbounded, because the input index is not clamped to
`[0, 1]`: every bound `B` is exceeded by some input. -/
theorem estimate_carbon_storage_pure_scale :
    (∀ (img : EEImage) (p : Pixel),
        (estimate_carbon_storage img).pix p = img.pix p * 200)
    ∧ (estimate_carbon_storage
        { name := "NDVI", pix := fun _ => 1 / 2, timeStart := 0, cloudCover := 0 }).pix 0 = 100
    ∧ (∀ B : ℚ, ∃ img : EEImage, B < (estimate_carbon_storage img).pix 0) := by
  refine ⟨fun img p => rfl, by norm_num [estimate_carbon_storage], fun B => ?_⟩
  refine ⟨{ name := "NDVI", pix := fun _ => |B| + 1, timeStart := 0, cloudCover := 0 }, ?_⟩
  show B < (|B| + 1) * 200
  have h1 : (0 : ℚ) ≤ |B| := abs_nonneg B
  have h2 : B ≤ |B| := le_abs_self B
  nlinarith

/-- C6: for every pair of non-negative band inputs with a nonzero sum,
the per-pixel vegetation index `(nir - red) / (nir + red)` computed by
`add_ndvi` lies in `[-1, 1]`. -/
theorem ndvi_in_unit_interval (img : LandsatImage) (p : Pixel)
    (h5 : 0 ≤ img.srB5 p) (h4 : 0 ≤ img.srB4 p)
    (hsum : img.srB5 p + img.srB4 p ≠ 0) :
    -1 ≤ (add_ndvi img).pix p ∧ (add_ndvi img).pix p ≤ 1 := by
  have hpos : 0 < img.srB5 p + img.srB4 p :=
    lt_of_le_of_ne (by linarith) (Ne.symm hsum)
  constructor
  · show -1 ≤ (img.srB5 p - img.srB4 p) / (img.srB5 p + img.srB4 p)
    rw [le_div_iff hpos]
    linarith
  · show (img.srB5 p - img.srB4 p) / (img.srB5 p + img.srB4 p) ≤ 1
    rw [div_le_one hpos]
    linarith

/-- Witness for C6 at the concrete bands `nir = 3`, `red = 1`. -/
theorem ndvi_in_unit_interval_witness :
    -1 ≤ (add_ndvi imgA).pix 0 ∧ (add_ndvi imgA).pix 0 ≤ 1 :=
  ndvi_in_unit_interval imgA 0 (by norm_num [imgA]) (by norm_num [imgA])
    (by norm_num [imgA])

/-- C8: for any user-supplied date range normalized by the date-range
widget (so `start ≤ end ≤ now`, per the widget contract stated in the
spec), the query the app passes to `filterDate` is never malformed:
its start bound never lies after its end bound. -/
theorem no_malformed_query_from_widget (now startDate endDate : Nat)
    (h : widgetNormalized now startDate endDate) :
    ¬ malformedQuery (appQuery startDate endDate) := by
  intro hm
  simp only [malformedQuery, appQuery] at hm
  exact absurd h.1 (by omega)

/-- Witness for C8 at the concrete range `(0, 365)` with `now = 365`. -/
theorem no_malformed_query_from_widget_witness :
    ¬ malformedQuery (appQuery 0 365) :=
  no_malformed_query_from_widget 365 0 365 ⟨Nat.zero_le _, le_refl _⟩

/-- C7 fails on the code: the constructor of
`CarbonSequestrationProcessor` (src/data_processor.py lines 8-18)
retries `ee.Initialize()` after authenticating when the first attempt
fails, so the system does retry a failed service connection.  Concrete
input: first connection attempt fails, authentication succeeds. -/
theorem processor_init_retries :
    initRetried { initOk := false, authOk := true, initAfterAuthOk := true } := by
  decide

/-- C7 (amended): a service-authentication failure at startup is
surfaced with setup instructions and halts further execution
(`appRun` yields `none` and no view runs); when startup succeeds every
view section runs and any per-view error stays inline (non-fatal); the
processor constructor, however, retries the service connection exactly
once after authenticating — its trace never holds more than two
connection attempts, and exactly one when the first succeeds. -/
theorem startup_error_handling :
    ∀ (s : EEService) (f : ViewFailures),
      (s.initOk = false → appRun s f = none)
      ∧ (s.initOk = true →
          appRun s f = some (runView f.mapFail, runView f.statsFail, runView f.chartFail))
      ∧ (processorInit s).1.count InitCall.initCall ≤ 2
      ∧ (s.initOk = true → (processorInit s).1 = [InitCall.initCall]) := by
  intro s f
  obtain ⟨i, a, r⟩ := s
  refine ⟨fun h => ?_, fun h => ?_, ?_, fun h => ?_⟩
  · simp only at h
    simp [appRun, h]
  · simp only at h
    simp [appRun, h]
  · cases i <;> cases a <;> cases r <;> decide
  · simp only at h
    subst h
    rfl

/-- Witness for C7 (amended): with a failing first connection the app
halts at startup. -/
theorem startup_error_handling_witness :
    appRun { initOk := false, authOk := true, initAfterAuthOk := true }
        { mapFail := false, statsFail := false, chartFail := false } = none :=
  (startup_error_handling
    { initOk := false, authOk := true, initAfterAuthOk := true }
    { mapFail := false, statsFail := false, chartFail := false }).1 rfl

/-- C2: `get_area_statistics` computes the index series, takes the
per-pixel temporal mean of the index across all returned images,
multiplies by 200, then spatially reduces by the mean over the region
at the fixed 30-meter scale with a cap of `10^9` sampled pixels,
returning a single scalar: its result dictionary carries exactly the
one value prescribed by the spec-side description
`spec_area_statistic` (and both fail alike past the pixel cap). -/
theorem get_area_statistics_follows_spec :
    ∀ (cat : Catalog) (roi : Region) (startDate endDate : Nat),
      (get_area_statistics cat roi startDate endDate).map (List.map Prod.snd)
        = (spec_area_statistic cat roi startDate endDate).map (fun v => [v]) := by
  intro cat roi startDate endDate
  unfold get_area_statistics spec_area_statistic reduceRegionMean
  by_cases h : 10 ^ 9 < roi.card
  · rw [if_pos h, if_pos h]
    rfl
  · rw [if_neg h, if_neg h]
    rfl

/-- C3: the row sequence of `create_time_series_data` has exactly one
row per image the remote query returns for the window, and a window
with no matching images yields the empty sequence — not an error —
whatever the failure oracle says. -/
theorem time_series_length_matches_query :
    ∀ (cat : Catalog) (roi : Region) (startDate endDate : Nat),
      (create_time_series_data cat roi startDate endDate).length
        = (queryImages cat roi startDate endDate).length
      ∧ (queryImages cat roi startDate endDate = [] →
          create_time_series_data cat roi startDate endDate = []
          ∧ ∀ fail : Nat → Bool,
              timeSeriesRun (get_ndvi_time_series cat roi startDate endDate) roi fail
                = ([RemoteCall.sizeInfo], Except.ok [])) := by
  intro cat roi startDate endDate
  constructor
  · simp [create_time_series_data, timeSeriesRows, get_ndvi_time_series]
  · intro h
    constructor
    · simp [create_time_series_data, timeSeriesRows, get_ndvi_time_series, h]
    · intro fail
      simp [get_ndvi_time_series, h, timeSeriesRun, tsLoop]

/-- Witness for C3: the empty catalog yields an empty row sequence and
a successful empty run even under an always-failing oracle. -/
theorem time_series_length_matches_query_witness :
    create_time_series_data [] demoRoi 0 1000 = []
    ∧ timeSeriesRun (get_ndvi_time_series [] demoRoi 0 1000) demoRoi (fun _ => true)
        = ([RemoteCall.sizeInfo], Except.ok []) := by
  have h := (time_series_length_matches_query [] demoRoi 0 1000).2 rfl
  exact ⟨h.1, h.2 (fun _ => true)⟩

/-- C4 fails on the code: the query sorts by ascending `CLOUD_COVER`,
not by capture date, so the rows handed to the line chart need not be
chronological.  Concrete input: in `demoCat` the later capture is less
cloudy, so the rows come out with dates `[200, 100]` — out of order. -/
theorem time_series_dates_not_chronological :
    ¬ List.Pairwise (fun a b : Nat × ℚ => a.1 ≤ b.1)
        (create_time_series_data demoCat demoRoi 0 1000) := by
  decide

/-- C4 (amended): the rows of `create_time_series_data` are ordered by
the ascending-cloud-cover sort of the remote query — one row per
image, dates following that sort — and chronological order of the
rendered chart is not guaranteed. -/
theorem time_series_order_is_cloud_sort :
    ∀ (cat : Catalog) (roi : Region) (startDate endDate : Nat),
      (create_time_series_data cat roi startDate endDate).map Prod.fst
        = (queryImages cat roi startDate endDate).map LandsatImage.timeStart
      ∧ List.Pairwise cloudLE (queryImages cat roi startDate endDate) := by
  intro cat roi startDate endDate
  constructor
  · simp only [create_time_series_data, timeSeriesRows, get_ndvi_time_series, List.map_map]
    rfl
  · exact List.sorted_insertionSort cloudLE _

/-- C5: for `N` images in the window, `create_time_series_data` makes
exactly two remote round trips per image — one capture-date query and
one reduction — after the single size query (a trace of `1 + 2 * N`
calls, holding exactly one date call and one stats call per image
index), one image at a time with no batching; and if any single
reduction fails, the whole run yields an error and no partial row list
is returned. -/
theorem time_series_two_round_trips_per_image :
    ∀ (imgs : List EEImage) (roi : Region) (fail : Nat → Bool),
      ((∀ j, fail j = false) →
        (timeSeriesRun imgs roi fail).1
            = RemoteCall.sizeInfo :: loopTrace 0 imgs.length
        ∧ (timeSeriesRun imgs roi fail).1.length = 1 + 2 * imgs.length
        ∧ (∀ j, j < imgs.length →
            (timeSeriesRun imgs roi fail).1.count (RemoteCall.dateInfo j) = 1
            ∧ (timeSeriesRun imgs roi fail).1.count (RemoteCall.statsInfo j) = 1)
        ∧ (timeSeriesRun imgs roi fail).2 = Except.ok (timeSeriesRows imgs roi))
      ∧ (∀ j, j < imgs.length → fail j = true →
          ∃ msg, (timeSeriesRun imgs roi fail).2 = Except.error msg) := by
  intro imgs roi fail
  constructor
  · intro hok
    have hrun : timeSeriesRun imgs roi fail
        = (RemoteCall.sizeInfo :: loopTrace 0 imgs.length,
            Except.ok (timeSeriesRows imgs roi)) := by
      unfold timeSeriesRun
      rw [tsLoop_no_fail roi fail imgs 0 hok]
    refine ⟨by rw [hrun], ?_, ?_, by rw [hrun]⟩
    · rw [hrun]
      simp [loopTrace_length]
      omega
    · intro j hj
      rw [hrun]
      constructor
      · simp [List.count_cons, loopTrace_count_date]
        omega
      · simp [List.count_cons, loopTrace_count_stats]
        omega
  · intro j hj hf
    obtain ⟨msg, hm⟩ := tsLoop_fail roi fail imgs 0 j (by omega) (by simpa using hf)
    exact ⟨msg, hm⟩

/-- Witness for C5: on a two-image series the failure-free trace has
`1 + 2 * 2 = 5` calls, and an oracle failing the second reduction
aborts the run with an error. -/
theorem time_series_two_round_trips_per_image_witness :
    (timeSeriesRun [add_ndvi imgA, add_ndvi imgB] demoRoi (fun _ => false)).1.length = 5
    ∧ ∃ msg, (timeSeriesRun [add_ndvi imgA, add_ndvi imgB] demoRoi
        (fun j => decide (j = 1))).2 = Except.error msg := by
  constructor
  · have h := ((time_series_two_round_trips_per_image [add_ndvi imgA, add_ndvi imgB] demoRoi
      (fun _ => false)).1 (fun j => rfl)).2.1
    simpa using h
  · exact (time_series_two_round_trips_per_image [add_ndvi imgA, add_ndvi imgB] demoRoi
      (fun j => decide (j = 1))).2 1 (by decide) (by decide)

/-- C9: because multiplication by 200 is linear, scaling commutes with
the temporal and spatial means: for a window with at least one image
(and a region within the pixel cap) the scalar of
`get_area_statistics` equals the average of the per-image carbon
values of `create_time_series_data`; in particular, for a one-image
window the area statistic equals that single time-series value. -/
theorem area_statistic_commutes_with_time_series_mean :
    ∀ (cat : Catalog) (roi : Region) (startDate endDate : Nat),
      get_ndvi_time_series cat roi startDate endDate ≠ [] →
      roi.card ≤ 10 ^ 9 →
      get_area_statistics cat roi startDate endDate
        = Except.ok [("NDVI",
            listMean ((create_time_series_data cat roi startDate endDate).map Prod.snd))]
      ∧ (∀ d v, create_time_series_data cat roi startDate endDate = [(d, v)] →
          get_area_statistics cat roi startDate endDate = Except.ok [("NDVI", v)]) := by
  intro cat roi startDate endDate hne hcard
  have hvals : (create_time_series_data cat roi startDate endDate).map Prod.snd
      = (get_ndvi_time_series cat roi startDate endDate).map
          (fun img => finsetMean roi (fun p => img.pix p * 200)) := by
    simp only [create_time_series_data, timeSeriesRows, List.map_map]
    exact List.map_congr_left
      (fun img hmem => rowValue_eq img roi (mem_series_name hmem) hcard)
  have main : get_area_statistics cat roi startDate endDate
      = Except.ok [("NDVI",
          listMean ((create_time_series_data cat roi startDate endDate).map Prod.snd))] := by
    rw [get_area_statistics_eq cat roi startDate endDate hcard,
      collectionMean_series_name hne, hvals]
    exact congrArg (fun v => Except.ok [("NDVI", v)])
      (mean_swap roi (get_ndvi_time_series cat roi startDate endDate))
  refine ⟨main, fun d v hrow => ?_⟩
  rw [main, hrow]
  norm_num [listMean]

/-- Witness for C9: for the one-image window `[imgA]` the area
statistic equals the single time-series value `100`. -/
theorem area_statistic_commutes_witness :
    get_area_statistics [imgA] demoRoi 0 1000 = Except.ok [("NDVI", 100)] := by
  have hlen : (get_ndvi_time_series [imgA] demoRoi 0 1000).length = 1 := by decide
  have hne : get_ndvi_time_series [imgA] demoRoi 0 1000 ≠ [] := by
    intro h
    rw [h] at hlen
    exact absurd hlen (by decide)
  have hrow : create_time_series_data [imgA] demoRoi 0 1000 = [(200, 100)] := by
    norm_num [create_time_series_data, timeSeriesRows, get_ndvi_time_series, queryImages,
      sortByCloudCover, List.insertionSort, List.orderedInsert, queryFilter, demoRoi,
      imgA, add_ndvi, rowValue, imageAreaStats, reduceRegionMean, estimate_carbon_storage,
      finsetMean, cloudLE, List.filter]
  exact (area_statistic_commutes_with_time_series_mean [imgA] demoRoi 0 1000 hne
    (by decide)).2 200 100 hrow

/-- C10: `estimate_carbon_storage` never renames the band, so every
carbon value is published under the dictionary key `NDVI`: a
successful `get_area_statistics` call returns exactly the `NDVI` key,
which is where the app reads the carbon value (`appStatsRead`), and
every per-image reduction of the time-series loop returns its carbon
value under the `NDVI` key — the key the loop reads. -/
theorem carbon_published_under_ndvi_key :
    (∀ img : EEImage, (estimate_carbon_storage img).name = img.name)
    ∧ (∀ (cat : Catalog) (roi : Region) (startDate endDate : Nat),
        get_ndvi_time_series cat roi startDate endDate ≠ [] →
        roi.card ≤ 10 ^ 9 →
        ∃ v, get_area_statistics cat roi startDate endDate = Except.ok [("NDVI", v)]
          ∧ appStatsRead [("NDVI", v)] = some v)
    ∧ (∀ (cat : Catalog) (roi : Region) (startDate endDate : Nat) (img : EEImage),
        img ∈ get_ndvi_time_series cat roi startDate endDate →
        roi.card ≤ 10 ^ 9 →
        imageAreaStats img roi = Except.ok [("NDVI", rowValue img roi)]) := by
  refine ⟨fun img => rfl, ?_, ?_⟩
  · intro cat roi startDate endDate hne hcard
    refine ⟨finsetMean roi
        (fun p => (collectionMean (get_ndvi_time_series cat roi startDate endDate)).pix p * 200),
      ?_, by simp [appStatsRead, List.lookup]⟩
    rw [get_area_statistics_eq cat roi startDate endDate hcard,
      collectionMean_series_name hne]
  · intro cat roi startDate endDate img hmem hcard
    have hname := mem_series_name hmem
    rw [rowValue_eq img roi hname hcard]
    unfold imageAreaStats
    rw [reduceRegionMean_ok _ _ _ _ hcard]
    simp [estimate_carbon_storage, hname]

/-- Witness for C10 on the two-image demo window: the statistics
dictionary carries the key `NDVI` and the app reads it. -/
theorem carbon_published_under_ndvi_key_witness :
    ∃ v, get_area_statistics demoCat demoRoi 0 1000 = Except.ok [("NDVI", v)]
      ∧ appStatsRead [("NDVI", v)] = some v := by
  have hlen : (get_ndvi_time_series demoCat demoRoi 0 1000).length = 2 := by decide
  have hne : get_ndvi_time_series demoCat demoRoi 0 1000 ≠ [] := by
    intro h
    rw [h] at hlen
    exact absurd hlen (by decide)
  exact carbon_published_under_ndvi_key.2.1 demoCat demoRoi 0 1000 hne (by decide)
